import Mathlib

/-!
Shallow embedding of the ACDCN configuration module (`src/config.py`) and the
Firebase client manager (`src/firebase_client.py`).

Modelling choices:
* The process environment is a record of optional, already-coerced values
  (one per `ACDCN_`-prefixed variable; the `.env` file merges into the same
  mapping).  `kg_synergy_threshold` is a rational number standing for the
  Python float.
* The file system is a predicate `fs : String → Bool` telling which paths
  exist (`os.path.exists`).
* pydantic v1 `BaseSettings` validates fields in declaration order.  Errors
  of constrained types (`gt`/`ge`/`lt`/`le` violations) are collected into a
  single `ValidationError`.  The custom validator for
  `firebase_credential_path` is declared without `always=True`, so pydantic
  runs it only when the variable is explicitly supplied; when it is unset,
  the default `"firebase-credentials.json"` is installed with no existence
  check.  When the validator does run, its `FileNotFoundError` is not
  captured by pydantic (which only captures ValueError/TypeError/
  AssertionError), so it propagates immediately, aborting validation of the
  remaining fields.  `firebase_credential_path` is the first declared field.
* `get_config` is modelled as an explicit state transformer over the module
  state (the `_config` cache plus the structured-log stream).
-/

namespace ACDCN

/-- The process environment visible to `ACDCNConfig`:
each field is the (coerced) value of `ACDCN_<FIELD>` if set, else `none`. -/
structure Env where
  firebase_credential_path : Option String := none
  firestore_database_name : Option String := none
  kg_synergy_threshold : Option ℚ := none
  max_domain_connections : Option Int := none
  api_host : Option String := none
  api_port : Option Int := none
  batch_size : Option Int := none
  max_retry_attempts : Option Int := none
deriving Repr, DecidableEq

/-- The validated configuration snapshot produced by `ACDCNConfig(...)`. -/
structure ACDCNConfig where
  firebase_credential_path : String
  firestore_database_name : String
  kg_synergy_threshold : ℚ
  max_domain_connections : Int
  api_host : String
  api_port : Int
  batch_size : Int
  max_retry_attempts : Int
deriving Repr, DecidableEq

/-- Errors raised during snapshot construction.  `credentialMissing` models
the `FileNotFoundError` raised by `validate_firebase_credential_path`
(per the spec taxonomy, the `CredentialMissingError` specialization of
`ConfigurationError`); `validationError` models pydantic's `ValidationError`
carrying the offending field names. -/
inductive ConfigError where
  | credentialMissing (path : String)
  | validationError (fields : List String)
deriving Repr, DecidableEq

/-- The error message of `FileNotFoundError`, as built in
`validate_firebase_credential_path`. -/
def credMissingMessage (path : String) : String :=
  "Firebase credential file not found at " ++ path ++
  ". Generate via: https://console.firebase.google.com/project/_/settings/serviceaccounts/adminsdk"

/-- `str(e)` of a construction error (for the `configuration_failed` log). -/
def errString : ConfigError → String
  | .credentialMissing p => credMissingMessage p
  | .validationError fields => String.intercalate ", " fields

/-- Payload of the `configuration_loaded` log record:
`_config.dict(exclude={'firebase_credential_path'})`. -/
structure ConfigPayload where
  firestore_database_name : String
  kg_synergy_threshold : ℚ
  max_domain_connections : Int
  api_host : String
  api_port : Int
  batch_size : Int
  max_retry_attempts : Int
deriving Repr, DecidableEq

/-- `config.dict(exclude={'firebase_credential_path'})`. -/
def dictExcludeCred (c : ACDCNConfig) : ConfigPayload :=
  { firestore_database_name := c.firestore_database_name
    kg_synergy_threshold := c.kg_synergy_threshold
    max_domain_connections := c.max_domain_connections
    api_host := c.api_host
    api_port := c.api_port
    batch_size := c.batch_size
    max_retry_attempts := c.max_retry_attempts }

/-- Structured log records emitted by `config.py`. -/
inductive LogEvent where
  | firebase_credential_missing (path : String)
  | configuration_loaded (config : ConfigPayload)
  | configuration_failed (error : String)
deriving Repr, DecidableEq

/-- The numeric-constraint violations pydantic collects for the declared
`Field` bounds: `kg_synergy_threshold` has `ge=0.0, le=1.0`;
`max_domain_connections` has `gt=0`; `api_port` has `gt=1024, lt=65536`;
`batch_size` has `gt=0`; `max_retry_attempts` has `ge=1`.  Unset variables
take the declared defaults. -/
def fieldErrors (env : Env) : List String :=
  (if 0 ≤ env.kg_synergy_threshold.getD (3 / 4 : ℚ) ∧
      env.kg_synergy_threshold.getD (3 / 4 : ℚ) ≤ 1 then []
   else ["kg_synergy_threshold"]) ++
  (if 0 < env.max_domain_connections.getD 50 then []
   else ["max_domain_connections"]) ++
  (if 1024 < env.api_port.getD 8000 ∧ env.api_port.getD 8000 < 65536 then []
   else ["api_port"]) ++
  (if 0 < env.batch_size.getD 100 then [] else ["batch_size"]) ++
  (if 1 ≤ env.max_retry_attempts.getD 3 then [] else ["max_retry_attempts"])

/-- The tail of pydantic validation once the credential field holds `cred`:
constraint violations on the numeric fields are collected and reported
together as one `ValidationError`; otherwise the snapshot is produced. -/
def finishConfig (cred : String) (env : Env) :
    Except ConfigError ACDCNConfig × List LogEvent :=
  if fieldErrors env = [] then
    (.ok { firebase_credential_path := cred
           firestore_database_name := env.firestore_database_name.getD "(default)"
           kg_synergy_threshold := env.kg_synergy_threshold.getD (3 / 4 : ℚ)
           max_domain_connections := env.max_domain_connections.getD 50
           api_host := env.api_host.getD "0.0.0.0"
           api_port := env.api_port.getD 8000
           batch_size := env.batch_size.getD 100
           max_retry_attempts := env.max_retry_attempts.getD 3 }, [])
  else
    (.error (.validationError (fieldErrors env)), [])

/-- `ACDCNConfig()` construction: pydantic v1 validates fields in declaration
order and `firebase_credential_path` is declared first.  Its custom
validator has no `always=True`, so it runs only when the variable is
explicitly supplied; an unset variable takes the default with no existence
check.  When the validator runs and the file is missing, its
`FileNotFoundError` is not captured by pydantic (which only captures
ValueError/TypeError/AssertionError), so it propagates at once (also
emitting the `firebase_credential_missing` log record) and the later fields
are never validated.  Returns the result together with the log records
emitted during construction. -/
def buildACDCNConfig (fs : String → Bool) (env : Env) :
    Except ConfigError ACDCNConfig × List LogEvent :=
  match env.firebase_credential_path with
  | some p =>
    if fs p then finishConfig p env
    else (.error (.credentialMissing p), [.firebase_credential_missing p])
  | none => finishConfig "firebase-credentials.json" env

/-- Module state of `config.py`: the `_config` cache and the log stream. -/
structure ConfigState where
  _config : Option ACDCNConfig
  log : List LogEvent
deriving Repr, DecidableEq

/-- The module state at import time: `_config = None`, nothing logged. -/
def initConfigState : ConfigState := ⟨none, []⟩

/-- `get_config()` as a state transformer: return the cached snapshot if set,
else build one; on success cache it and log `configuration_loaded` (with the
credential path excluded), on failure log `configuration_failed` and
re-raise, leaving the cache unset. -/
def get_config (fs : String → Bool) (env : Env) (st : ConfigState) :
    Except ConfigError ACDCNConfig × ConfigState :=
  match st._config with
  | some c => (.ok c, st)
  | none =>
    match buildACDCNConfig fs env with
    | (.ok c, lg) =>
        (.ok c, ⟨some c, st.log ++ lg ++ [.configuration_loaded (dictExcludeCred c)]⟩)
    | (.error e, lg) =>
        (.error e, ⟨none, st.log ++ lg ++ [.configuration_failed (errString e)]⟩)

/-- `_connection_stats` of a `FirebaseManager`.  `last_healthy_check` is a
Python `datetime` or `None`, modelled as an optional timestamp. -/
structure ConnectionStats where
  last_healthy_check : Option Nat
  error_count : Nat
  total_operations : Nat
deriving Repr, DecidableEq

/-- A `FirebaseManager` Python object.  `id` is the object's identity
(allocation number), so that "same instance reference" is expressible.
Attributes that `__init__` has not yet set are `none`-wrapped; `_app` and
`_db` are themselves `Optional` in Python, hence the double `Option`. -/
structure Manager where
  id : Nat
  _initialized : Bool
  _config : Option ACDCNConfig
  _app : Option (Option Unit)
  _db : Option (Option Unit)
  _connection_stats : Option ConnectionStats
deriving Repr, DecidableEq

/-- Class-level state of `FirebaseManager`: the `_instance` slot plus an
allocation counter (`nextId` numbers fresh objects, `allocCount` counts how
many objects `super().__new__` has ever produced). -/
structure FMClass where
  _instance : Option Manager
  nextId : Nat
  allocCount : Nat
deriving Repr, DecidableEq

/-- Class state at import time: no instance, nothing allocated. -/
def initFMClass : FMClass := ⟨none, 0, 0⟩

/-- `FirebaseManager.__new__`: the whole body runs under `cls._lock`, so it
is one atomic step.  If `_instance` is unset, allocate a fresh object with
`_initialized = False` and store it; always return `_instance`. -/
def FirebaseManager.new (cls : FMClass) : Manager × FMClass :=
  match cls._instance with
  | some m => (m, cls)
  | none =>
    let m : Manager :=
      { id := cls.nextId, _initialized := false, _config := none,
        _app := none, _db := none, _connection_stats := none }
    (m, ⟨some m, cls.nextId + 1, cls.allocCount + 1⟩)

/-- `FirebaseManager.__init__`: if the object is not yet initialized, call
`get_config()` (which may raise) and set `_app = None`, `_db = None`, the
zeroed `_connection_stats`, and `_initialized = True`; otherwise do nothing.
Returns the (possibly raised) outcome, the updated object, and the updated
config-module state. -/
def FirebaseManager.init (fs : String → Bool) (env : Env) (m : Manager)
    (cfgSt : ConfigState) : Except ConfigError Manager × ConfigState :=
  if m._initialized then (.ok m, cfgSt)
  else
    match get_config fs env cfgSt with
    | (.ok c, cfgSt') =>
        (.ok { m with
                 _config := some c
                 _app := some none
                 _db := some none
                 _connection_stats := some ⟨none, 0, 0⟩
                 _initialized := true }, cfgSt')
    | (.error e, cfgSt') => (.error e, cfgSt')

/-- One evaluation of `FirebaseManager()`: Python runs `__new__`, then
`__init__` on the returned object; the mutation `__init__` performs is
visible through the class's `_instance` slot (same object). -/
def FirebaseManager.construct (fs : String → Bool) (env : Env)
    (cls : FMClass) (cfgSt : ConfigState) :
    Except ConfigError Manager × FMClass × ConfigState :=
  let (m, cls') := FirebaseManager.new cls
  match FirebaseManager.init fs env m cfgSt with
  | (.ok m', cfgSt') => (.ok m', ⟨some m', cls'.nextId, cls'.allocCount⟩, cfgSt')
  | (.error e, cfgSt') => (.error e, cls', cfgSt')

/-- N concurrent first-time callers racing through `__new__`: because the
body of `__new__` holds `cls._lock` throughout, any interleaving of the N
threads' critical sections is some sequential order of the N atomic calls.
`runNews n cls` performs `n` such calls and collects the returned
references. -/
def runNews : Nat → FMClass → List Manager × FMClass
  | 0, cls => ([], cls)
  | n + 1, cls =>
    let (m, cls') := FirebaseManager.new cls
    let (ms, cls'') := runNews n cls'
    (m :: ms, cls'')

/-! ## Helper lemmas -/

theorem fieldErrors_nil (env : Env)
    (hsyn₀ : 0 ≤ env.kg_synergy_threshold.getD (3 / 4 : ℚ))
    (hsyn₁ : env.kg_synergy_threshold.getD (3 / 4 : ℚ) ≤ 1)
    (hconn : 0 < env.max_domain_connections.getD 50)
    (hport₀ : 1024 < env.api_port.getD 8000)
    (hport₁ : env.api_port.getD 8000 < 65536)
    (hbatch : 0 < env.batch_size.getD 100)
    (hretry : 1 ≤ env.max_retry_attempts.getD 3) :
    fieldErrors env = [] := by
  simp [fieldErrors, hsyn₀, hsyn₁, hconn, hport₀, hport₁, hbatch, hretry]

theorem fieldErrors_ne_nil (env : Env)
    (hviol :
      ¬ (0 ≤ env.kg_synergy_threshold.getD (3 / 4 : ℚ) ∧
           env.kg_synergy_threshold.getD (3 / 4 : ℚ) ≤ 1) ∨
      ¬ (1024 < env.api_port.getD 8000 ∧ env.api_port.getD 8000 < 65536) ∨
      env.max_domain_connections.getD 50 ≤ 0 ∨
      env.batch_size.getD 100 ≤ 0 ∨
      env.max_retry_attempts.getD 3 ≤ 0) :
    fieldErrors env ≠ [] := by
  unfold fieldErrors
  rcases hviol with h | h | h | h | h
  · simp [h, List.append_eq_nil]
  · simp [h, List.append_eq_nil]
  · simp [not_lt.mpr h, List.append_eq_nil]
  · simp [not_lt.mpr h, List.append_eq_nil]
  · simp [not_le.mpr (lt_of_le_of_lt h one_pos), List.append_eq_nil]

theorem fieldErrors_empty_env : fieldErrors {} = [] := by
  norm_num [fieldErrors, Option.getD]

theorem finishConfig_ok (cred : String) (env : Env) (c : ACDCNConfig)
    (lg : List LogEvent) (h : finishConfig cred env = (.ok c, lg)) :
    c = { firebase_credential_path := cred
          firestore_database_name := env.firestore_database_name.getD "(default)"
          kg_synergy_threshold := env.kg_synergy_threshold.getD (3 / 4 : ℚ)
          max_domain_connections := env.max_domain_connections.getD 50
          api_host := env.api_host.getD "0.0.0.0"
          api_port := env.api_port.getD 8000
          batch_size := env.batch_size.getD 100
          max_retry_attempts := env.max_retry_attempts.getD 3 } ∧ lg = [] := by
  unfold finishConfig at h
  split at h
  · simp only [Prod.mk.injEq, Except.ok.injEq] at h
    exact ⟨h.1.symm, h.2.symm⟩
  · simp at h

theorem buildACDCNConfig_ok (fs : String → Bool) (env : Env) (c : ACDCNConfig)
    (lg : List LogEvent) (h : buildACDCNConfig fs env = (.ok c, lg)) :
    c = { firebase_credential_path :=
            env.firebase_credential_path.getD "firebase-credentials.json"
          firestore_database_name := env.firestore_database_name.getD "(default)"
          kg_synergy_threshold := env.kg_synergy_threshold.getD (3 / 4 : ℚ)
          max_domain_connections := env.max_domain_connections.getD 50
          api_host := env.api_host.getD "0.0.0.0"
          api_port := env.api_port.getD 8000
          batch_size := env.batch_size.getD 100
          max_retry_attempts := env.max_retry_attempts.getD 3 } ∧ lg = [] := by
  rcases hcp : env.firebase_credential_path with - | p
  · simp only [buildACDCNConfig, hcp] at h
    obtain ⟨hc, hlg⟩ := finishConfig_ok _ env c lg h
    exact ⟨by rw [hc]; simp [hcp], hlg⟩
  · simp only [buildACDCNConfig, hcp] at h
    split at h
    · obtain ⟨hc, hlg⟩ := finishConfig_ok _ env c lg h
      exact ⟨by rw [hc]; simp [hcp], hlg⟩
    · simp at h

theorem get_config_ok_fresh (fs : String → Bool) (env : Env) (c : ACDCNConfig)
    (st' : ConfigState) (h : get_config fs env initConfigState = (.ok c, st')) :
    buildACDCNConfig fs env = (.ok c, []) ∧
    st' = ⟨some c, [.configuration_loaded (dictExcludeCred c)]⟩ := by
  unfold get_config initConfigState at h
  rcases hb : buildACDCNConfig fs env with ⟨r, lg⟩
  rw [hb] at h
  cases r with
  | ok c₁ =>
    simp only [Prod.mk.injEq, Except.ok.injEq] at h
    obtain ⟨rfl, rfl⟩ := h
    obtain ⟨-, rfl⟩ := buildACDCNConfig_ok fs env c₁ lg hb
    simp [hb]
  | error e => simp at h

/-! ## Claim theorems -/

/-- C1: whenever every set environment field satisfies its declared
constraint (with unset fields coalescing to the declared defaults) and the
credential path names an existing file, `get_config()` succeeds, caches the
snapshot, logs `configuration_loaded`, and the snapshot's fields equal the
environment values, defaults filling the unset ones (`api_host "0.0.0.0"`,
`api_port 8000`, database `"(default)"`, threshold `0.75`,
`max_domain_connections 50`, `batch_size 100`, `max_retry_attempts 3`). -/
theorem get_config_valid_env (fs : String → Bool) (env : Env)
    (hcred : fs (env.firebase_credential_path.getD "firebase-credentials.json") = true)
    (hsyn₀ : 0 ≤ env.kg_synergy_threshold.getD (3 / 4 : ℚ))
    (hsyn₁ : env.kg_synergy_threshold.getD (3 / 4 : ℚ) ≤ 1)
    (hconn : 0 < env.max_domain_connections.getD 50)
    (hport₀ : 1024 < env.api_port.getD 8000)
    (hport₁ : env.api_port.getD 8000 < 65536)
    (hbatch : 0 < env.batch_size.getD 100)
    (hretry : 1 ≤ env.max_retry_attempts.getD 3) :
    get_config fs env initConfigState =
      (.ok { firebase_credential_path :=
               env.firebase_credential_path.getD "firebase-credentials.json"
             firestore_database_name := env.firestore_database_name.getD "(default)"
             kg_synergy_threshold := env.kg_synergy_threshold.getD (3 / 4 : ℚ)
             max_domain_connections := env.max_domain_connections.getD 50
             api_host := env.api_host.getD "0.0.0.0"
             api_port := env.api_port.getD 8000
             batch_size := env.batch_size.getD 100
             max_retry_attempts := env.max_retry_attempts.getD 3 },
       ⟨some { firebase_credential_path :=
                 env.firebase_credential_path.getD "firebase-credentials.json"
               firestore_database_name := env.firestore_database_name.getD "(default)"
               kg_synergy_threshold := env.kg_synergy_threshold.getD (3 / 4 : ℚ)
               max_domain_connections := env.max_domain_connections.getD 50
               api_host := env.api_host.getD "0.0.0.0"
               api_port := env.api_port.getD 8000
               batch_size := env.batch_size.getD 100
               max_retry_attempts := env.max_retry_attempts.getD 3 },
        [.configuration_loaded
           { firestore_database_name := env.firestore_database_name.getD "(default)"
             kg_synergy_threshold := env.kg_synergy_threshold.getD (3 / 4 : ℚ)
             max_domain_connections := env.max_domain_connections.getD 50
             api_host := env.api_host.getD "0.0.0.0"
             api_port := env.api_port.getD 8000
             batch_size := env.batch_size.getD 100
             max_retry_attempts := env.max_retry_attempts.getD 3 }]⟩) := by
  have herr := fieldErrors_nil env hsyn₀ hsyn₁ hconn hport₀ hport₁ hbatch hretry
  rcases hcp : env.firebase_credential_path with - | p
  · simp [get_config, initConfigState, buildACDCNConfig, finishConfig, hcp, herr,
      dictExcludeCred]
  · rw [hcp] at hcred
    simp only [Option.getD_some] at hcred
    simp [get_config, initConfigState, buildACDCNConfig, finishConfig, hcp, hcred,
      herr, dictExcludeCred]

/-- C1 witness: `ACDCN_API_PORT=9090`, credential file present — the
snapshot has `api_port = 9090` and the documented defaults elsewhere. -/
theorem get_config_valid_env_witness :
    get_config (fun p => p == "firebase-credentials.json")
        { api_port := some 9090 } initConfigState =
      (.ok { firebase_credential_path := "firebase-credentials.json"
             firestore_database_name := "(default)"
             kg_synergy_threshold := (3 / 4 : ℚ)
             max_domain_connections := 50
             api_host := "0.0.0.0"
             api_port := 9090
             batch_size := 100
             max_retry_attempts := 3 },
       ⟨some { firebase_credential_path := "firebase-credentials.json"
               firestore_database_name := "(default)"
               kg_synergy_threshold := (3 / 4 : ℚ)
               max_domain_connections := 50
               api_host := "0.0.0.0"
               api_port := 9090
               batch_size := 100
               max_retry_attempts := 3 },
        [.configuration_loaded
           { firestore_database_name := "(default)"
             kg_synergy_threshold := (3 / 4 : ℚ)
             max_domain_connections := 50
             api_host := "0.0.0.0"
             api_port := 9090
             batch_size := 100
             max_retry_attempts := 3 }]⟩) :=
  get_config_valid_env (fun p => p == "firebase-credentials.json")
    { api_port := some 9090 } (by decide) (by norm_num [Option.getD])
    (by norm_num [Option.getD]) (by decide) (by decide) (by decide) (by decide)
    (by decide)

/-- C2: any declared-range violation (threshold outside `[0,1]`, port outside
`(1024,65536)`, or a nonpositive `max_domain_connections`, `batch_size` or
`max_retry_attempts`) makes construction fail; `get_config()` propagates the
very same error to its caller and leaves the cache unset, so no snapshot is
produced. -/
theorem get_config_rejects_out_of_range (fs : String → Bool) (env : Env)
    (hviol :
      ¬ (0 ≤ env.kg_synergy_threshold.getD (3 / 4 : ℚ) ∧
           env.kg_synergy_threshold.getD (3 / 4 : ℚ) ≤ 1) ∨
      ¬ (1024 < env.api_port.getD 8000 ∧ env.api_port.getD 8000 < 65536) ∨
      env.max_domain_connections.getD 50 ≤ 0 ∨
      env.batch_size.getD 100 ≤ 0 ∨
      env.max_retry_attempts.getD 3 ≤ 0) :
    ∃ e, (buildACDCNConfig fs env).1 = .error e ∧
      (get_config fs env initConfigState).1 = .error e ∧
      ((get_config fs env initConfigState).2)._config = none := by
  have herr := fieldErrors_ne_nil env hviol
  obtain ⟨e, lg, hb⟩ : ∃ e lg, buildACDCNConfig fs env = (.error e, lg) := by
    rcases hcp : env.firebase_credential_path with - | p
    · refine ⟨.validationError (fieldErrors env), [], ?_⟩
      simp [buildACDCNConfig, finishConfig, hcp, herr]
    · by_cases hc : fs p = true
      · refine ⟨.validationError (fieldErrors env), [], ?_⟩
        simp [buildACDCNConfig, finishConfig, hcp, hc, herr]
      · rw [Bool.not_eq_true] at hc
        refine ⟨.credentialMissing p, [.firebase_credential_missing p], ?_⟩
        simp [buildACDCNConfig, hcp, hc]
  exact ⟨e, by simp [hb], by simp [get_config, initConfigState, hb],
         by simp [get_config, initConfigState, hb]⟩

/-- C2 witness: `ACDCN_API_PORT=80` (port ≤ 1024) fails construction and
leaves no cached snapshot. -/
theorem get_config_rejects_out_of_range_witness :
    ∃ e, (buildACDCNConfig (fun _ => true) { api_port := some 80 }).1 = .error e ∧
      (get_config (fun _ => true) { api_port := some 80 } initConfigState).1 = .error e ∧
      ((get_config (fun _ => true) { api_port := some 80 } initConfigState).2)._config = none :=
  get_config_rejects_out_of_range (fun _ => true) { api_port := some 80 }
    (Or.inr (Or.inl (by decide)))

/-- C3 counterexample: with `ACDCN_FIREBASE_CREDENTIAL_PATH` unset and the
default `firebase-credentials.json` file absent, pydantic skips the
validator (it has no `always=True`), so construction succeeds with a
snapshot naming the nonexistent default — it does not fail with the
missing-credential error as the claim requires. -/
theorem credential_missing_counterexample :
    (buildACDCNConfig (fun _ => false) {}).1 =
      .ok { firebase_credential_path := "firebase-credentials.json"
            firestore_database_name := "(default)"
            kg_synergy_threshold := (3 / 4 : ℚ)
            max_domain_connections := 50
            api_host := "0.0.0.0"
            api_port := 8000
            batch_size := 100
            max_retry_attempts := 3 } ∧
    (buildACDCNConfig (fun _ => false) {}).1 ≠
      .error (.credentialMissing "firebase-credentials.json") := by
  have h : (buildACDCNConfig (fun _ => false) ({} : Env)).1 =
      .ok { firebase_credential_path := "firebase-credentials.json"
            firestore_database_name := "(default)"
            kg_synergy_threshold := (3 / 4 : ℚ)
            max_domain_connections := 50
            api_host := "0.0.0.0"
            api_port := 8000
            batch_size := 100
            max_retry_attempts := 3 } := by
    simp [buildACDCNConfig, finishConfig, fieldErrors_empty_env]
  refine ⟨h, ?_⟩
  rw [h]
  intro hh
  simp at hh

/-- C3 amended: for every input whose credential path is explicitly set to
a path naming no existing file, construction fails with the
`CredentialMissingError` specialization (`FileNotFoundError`) and its
message contains the configured path; when the variable is unset, the
validator is skipped for the defaulted path. -/
theorem get_config_credential_missing (fs : String → Bool) (env : Env)
    (p : String) (hcp : env.firebase_credential_path = some p)
    (hc : fs p = false) :
    (get_config fs env initConfigState).1 = .error (.credentialMissing p) ∧
    ∃ s t, errString (.credentialMissing p) = s ++ p ++ t := by
  constructor
  · simp [get_config, initConfigState, buildACDCNConfig, hcp, hc]
  · exact ⟨"Firebase credential file not found at ",
      ". Generate via: https://console.firebase.google.com/project/_/settings/serviceaccounts/adminsdk",
      rfl⟩

/-- C3 amended witness: `ACDCN_FIREBASE_CREDENTIAL_PATH=missing.json` with
no such file fails naming `missing.json`, which occurs in the message. -/
theorem get_config_credential_missing_witness :
    (get_config (fun _ => false)
        { firebase_credential_path := some "missing.json" } initConfigState).1 =
      .error (.credentialMissing "missing.json") ∧
    ∃ s t, errString (.credentialMissing "missing.json") =
      s ++ "missing.json" ++ t :=
  get_config_credential_missing (fun _ => false)
    { firebase_credential_path := some "missing.json" } "missing.json" rfl rfl

/-- C4: once a call to `get_config()` has succeeded, every later call —
even under a different environment or file system — returns the very same
cached snapshot and leaves the module state untouched: no re-validation, no
re-read of the environment, and no second `configuration_loaded` record. -/
theorem get_config_idempotent (fs fs' : String → Bool) (env env' : Env)
    (st : ConfigState) (c : ACDCNConfig) (st' : ConfigState)
    (h : get_config fs env st = (.ok c, st')) :
    get_config fs' env' st' = (.ok c, st') := by
  have hcfg : st'._config = some c := by
    unfold get_config at h
    rcases hst : st._config with - | c₀
    · rw [hst] at h
      rcases hb : buildACDCNConfig fs env with ⟨r, lg⟩
      rw [hb] at h
      cases r with
      | ok c₁ =>
        simp only [Prod.mk.injEq, Except.ok.injEq] at h
        obtain ⟨rfl, rfl⟩ := h
        rfl
      | error e => simp at h
    · rw [hst] at h
      simp only [Prod.mk.injEq, Except.ok.injEq] at h
      obtain ⟨rfl, rfl⟩ := h
      exact hst
  unfold get_config
  rw [hcfg]

/-- C4 witness: after a successful load, a second call with a different
file system still returns the cached snapshot with an unchanged state. -/
theorem get_config_idempotent_witness :
    get_config (fun _ => false) { api_port := some 2000 }
      ⟨some { firebase_credential_path := "firebase-credentials.json"
              firestore_database_name := "(default)"
              kg_synergy_threshold := (3 / 4 : ℚ)
              max_domain_connections := 50
              api_host := "0.0.0.0"
              api_port := 9090
              batch_size := 100
              max_retry_attempts := 3 },
       [.configuration_loaded
          { firestore_database_name := "(default)"
            kg_synergy_threshold := (3 / 4 : ℚ)
            max_domain_connections := 50
            api_host := "0.0.0.0"
            api_port := 9090
            batch_size := 100
            max_retry_attempts := 3 }]⟩ =
      (.ok { firebase_credential_path := "firebase-credentials.json"
             firestore_database_name := "(default)"
             kg_synergy_threshold := (3 / 4 : ℚ)
             max_domain_connections := 50
             api_host := "0.0.0.0"
             api_port := 9090
             batch_size := 100
             max_retry_attempts := 3 },
       ⟨some { firebase_credential_path := "firebase-credentials.json"
               firestore_database_name := "(default)"
               kg_synergy_threshold := (3 / 4 : ℚ)
               max_domain_connections := 50
               api_host := "0.0.0.0"
               api_port := 9090
               batch_size := 100
               max_retry_attempts := 3 },
        [.configuration_loaded
           { firestore_database_name := "(default)"
             kg_synergy_threshold := (3 / 4 : ℚ)
             max_domain_connections := 50
             api_host := "0.0.0.0"
             api_port := 9090
             batch_size := 100
             max_retry_attempts := 3 }]⟩) :=
  get_config_idempotent (fun p => p == "firebase-credentials.json") (fun _ => false)
    { api_port := some 9090 } { api_port := some 2000 } initConfigState _ _
    (by
      have herr : fieldErrors { api_port := some 9090 } = [] := by
        norm_num [fieldErrors, Option.getD]
      simp [get_config, initConfigState, buildACDCNConfig, finishConfig, herr,
        dictExcludeCred])

/-- C5 counterexample: with `ACDCN_FIREBASE_CREDENTIAL_PATH=missing.json`
(no such file) and `ACDCN_API_PORT=80` (out of range), construction reports
the missing-file error, not the `api_port` range violation — the claim's
predicted outcome does not occur at this input. -/
theorem validation_order_counterexample :
    (buildACDCNConfig (fun _ => false)
        { firebase_credential_path := some "missing.json", api_port := some 80 }).1 =
      .error (.credentialMissing "missing.json") ∧
    (buildACDCNConfig (fun _ => false)
        { firebase_credential_path := some "missing.json", api_port := some 80 }).1 ≠
      .error (.validationError ["api_port"]) := by
  constructor
  · rfl
  · intro h
    simp [buildACDCNConfig] at h

/-- C5 amended: validation follows pydantic declaration order, and the
credential existence validator (declared first, without `always=True`) runs
only when the path is explicitly supplied; hence, for every input with an
out-of-range `api_port`, an explicitly set nonexistent credential path makes
the reported failure the missing-file error, while an unset credential path
skips the existence check and the structural range violation is reported. -/
theorem validation_order_amended (fs : String → Bool) (env : Env)
    (hport : ¬ (1024 < env.api_port.getD 8000 ∧ env.api_port.getD 8000 < 65536)) :
    (∀ p, env.firebase_credential_path = some p → fs p = false →
       (buildACDCNConfig fs env).1 = .error (.credentialMissing p)) ∧
    (env.firebase_credential_path = none →
       (buildACDCNConfig fs env).1 =
         .error (.validationError (fieldErrors env))) := by
  constructor
  · intro p hcp hc
    simp [buildACDCNConfig, hcp, hc]
  · intro hcp
    have herr : fieldErrors env ≠ [] :=
      fieldErrors_ne_nil env (Or.inr (Or.inl hport))
    simp [buildACDCNConfig, finishConfig, hcp, herr]

/-- C5 amended witness: with `ACDCN_API_PORT=80`, an explicitly set missing
credential path yields the missing-file error, while an unset path yields
the `api_port` validation error. -/
theorem validation_order_amended_witness :
    (buildACDCNConfig (fun _ => false)
        { firebase_credential_path := some "absent.json", api_port := some 80 }).1 =
      .error (.credentialMissing "absent.json") ∧
    (buildACDCNConfig (fun _ => true) { api_port := some 80 }).1 =
      .error (.validationError (fieldErrors { api_port := some 80 })) :=
  ⟨(validation_order_amended (fun _ => false)
      { firebase_credential_path := some "absent.json", api_port := some 80 }
      (by decide)).1 "absent.json" rfl rfl,
   (validation_order_amended (fun _ => true) { api_port := some 80 }
      (by decide)).2 rfl⟩

/-- C6: the `configuration_loaded` record carries
`config.dict(exclude={'firebase_credential_path'})`; two successful runs
whose environments differ only in the credential path (under possibly
different file systems) produce identical log payloads and identical log
streams. -/
theorem log_excludes_credential_path (fs₁ fs₂ : String → Bool) (env : Env)
    (p : Option String) (c₁ c₂ : ACDCNConfig) (st₁ st₂ : ConfigState)
    (h₁ : get_config fs₁ env initConfigState = (.ok c₁, st₁))
    (h₂ : get_config fs₂ { env with firebase_credential_path := p }
            initConfigState = (.ok c₂, st₂)) :
    dictExcludeCred c₁ = dictExcludeCred c₂ ∧ st₁.log = st₂.log := by
  obtain ⟨hb₁, hst₁⟩ := get_config_ok_fresh fs₁ env c₁ st₁ h₁
  obtain ⟨hb₂, hst₂⟩ := get_config_ok_fresh fs₂ _ c₂ st₂ h₂
  obtain ⟨hc₁, -⟩ := buildACDCNConfig_ok fs₁ env c₁ [] hb₁
  obtain ⟨hc₂, -⟩ := buildACDCNConfig_ok fs₂ _ c₂ [] hb₂
  have hd : dictExcludeCred c₁ = dictExcludeCred c₂ := by
    subst hc₁ hc₂
    simp [dictExcludeCred]
  exact ⟨hd, by rw [hst₁, hst₂, hd]⟩

/-- C6 witness: two successful loads, one with the default credential path
and one with `ACDCN_FIREBASE_CREDENTIAL_PATH=alt.json`, emit the same
`configuration_loaded` payload and the same log stream. -/
theorem log_excludes_credential_path_witness :
    dictExcludeCred { firebase_credential_path := "firebase-credentials.json"
                      firestore_database_name := "(default)"
                      kg_synergy_threshold := (3 / 4 : ℚ)
                      max_domain_connections := 50
                      api_host := "0.0.0.0"
                      api_port := 8000
                      batch_size := 100
                      max_retry_attempts := 3 } =
      dictExcludeCred { firebase_credential_path := "alt.json"
                        firestore_database_name := "(default)"
                        kg_synergy_threshold := (3 / 4 : ℚ)
                        max_domain_connections := 50
                        api_host := "0.0.0.0"
                        api_port := 8000
                        batch_size := 100
                        max_retry_attempts := 3 } ∧
    (⟨some { firebase_credential_path := "firebase-credentials.json"
             firestore_database_name := "(default)"
             kg_synergy_threshold := (3 / 4 : ℚ)
             max_domain_connections := 50
             api_host := "0.0.0.0"
             api_port := 8000
             batch_size := 100
             max_retry_attempts := 3 },
      [.configuration_loaded
         { firestore_database_name := "(default)"
           kg_synergy_threshold := (3 / 4 : ℚ)
           max_domain_connections := 50
           api_host := "0.0.0.0"
           api_port := 8000
           batch_size := 100
           max_retry_attempts := 3 }]⟩ : ConfigState).log =
    (⟨some { firebase_credential_path := "alt.json"
             firestore_database_name := "(default)"
             kg_synergy_threshold := (3 / 4 : ℚ)
             max_domain_connections := 50
             api_host := "0.0.0.0"
             api_port := 8000
             batch_size := 100
             max_retry_attempts := 3 },
      [.configuration_loaded
         { firestore_database_name := "(default)"
           kg_synergy_threshold := (3 / 4 : ℚ)
           max_domain_connections := 50
           api_host := "0.0.0.0"
           api_port := 8000
           batch_size := 100
           max_retry_attempts := 3 }]⟩ : ConfigState).log :=
  log_excludes_credential_path (fun _ => true) (fun p => p == "alt.json") {}
    (some "alt.json") _ _ _ _
    (by simp [get_config, initConfigState, buildACDCNConfig, finishConfig,
          fieldErrors_empty_env, dictExcludeCred])
    (by
      have herr' : fieldErrors ({ firebase_credential_path := some "alt.json" } : Env) = [] := by
        norm_num [fieldErrors, Option.getD]
      simp [get_config, initConfigState, buildACDCNConfig, finishConfig, herr',
        dictExcludeCred])

/-- C9: when construction fails, `get_config()` re-raises the same error and
leaves `_config` unset, appending a `configuration_failed` record; a second
failing call logs the failure anew; and a later call under a changed
environment or file system re-attempts the full build and succeeds. -/
theorem get_config_error_retry (fs₁ fs₂ : String → Bool) (env₁ env₂ : Env)
    (e : ConfigError) (lg₁ lg₂ : List LogEvent) (c : ACDCNConfig)
    (h₁ : buildACDCNConfig fs₁ env₁ = (.error e, lg₁))
    (h₂ : buildACDCNConfig fs₂ env₂ = (.ok c, lg₂)) :
    get_config fs₁ env₁ initConfigState =
      (.error e, ⟨none, lg₁ ++ [.configuration_failed (errString e)]⟩) ∧
    get_config fs₁ env₁ ⟨none, lg₁ ++ [.configuration_failed (errString e)]⟩ =
      (.error e, ⟨none, (lg₁ ++ [.configuration_failed (errString e)]) ++
                    lg₁ ++ [.configuration_failed (errString e)]⟩) ∧
    get_config fs₂ env₂ ⟨none, lg₁ ++ [.configuration_failed (errString e)]⟩ =
      (.ok c, ⟨some c, (lg₁ ++ [.configuration_failed (errString e)]) ++
                 lg₂ ++ [.configuration_loaded (dictExcludeCred c)]⟩) := by
  refine ⟨?_, ?_, ?_⟩ <;>
    simp [get_config, initConfigState, h₁, h₂, List.append_assoc]

/-- C9 witness: an explicitly set, missing credential file
(`ACDCN_FIREBASE_CREDENTIAL_PATH=gone.json`) fails twice, logging the
failure each time; after the variable is unset and the default file exists,
the same process loads successfully. -/
theorem get_config_error_retry_witness :
    get_config (fun _ => false) { firebase_credential_path := some "gone.json" }
      initConfigState =
      (.error (.credentialMissing "gone.json"),
       ⟨none, [.firebase_credential_missing "gone.json"] ++
          [.configuration_failed (errString (.credentialMissing "gone.json"))]⟩) ∧
    get_config (fun _ => false) { firebase_credential_path := some "gone.json" }
      ⟨none, [.firebase_credential_missing "gone.json"] ++
         [.configuration_failed (errString (.credentialMissing "gone.json"))]⟩ =
      (.error (.credentialMissing "gone.json"),
       ⟨none, ([.firebase_credential_missing "gone.json"] ++
           [.configuration_failed (errString (.credentialMissing "gone.json"))]) ++
          [.firebase_credential_missing "gone.json"] ++
          [.configuration_failed (errString (.credentialMissing "gone.json"))]⟩) ∧
    get_config (fun _ => true) {}
      ⟨none, [.firebase_credential_missing "gone.json"] ++
         [.configuration_failed (errString (.credentialMissing "gone.json"))]⟩ =
      (.ok { firebase_credential_path := "firebase-credentials.json"
             firestore_database_name := "(default)"
             kg_synergy_threshold := (3 / 4 : ℚ)
             max_domain_connections := 50
             api_host := "0.0.0.0"
             api_port := 8000
             batch_size := 100
             max_retry_attempts := 3 },
       ⟨some { firebase_credential_path := "firebase-credentials.json"
               firestore_database_name := "(default)"
               kg_synergy_threshold := (3 / 4 : ℚ)
               max_domain_connections := 50
               api_host := "0.0.0.0"
               api_port := 8000
               batch_size := 100
               max_retry_attempts := 3 },
        ([.firebase_credential_missing "gone.json"] ++
            [.configuration_failed (errString (.credentialMissing "gone.json"))]) ++
           [] ++
           [.configuration_loaded
              { firestore_database_name := "(default)"
                kg_synergy_threshold := (3 / 4 : ℚ)
                max_domain_connections := 50
                api_host := "0.0.0.0"
                api_port := 8000
                batch_size := 100
                max_retry_attempts := 3 }]⟩) :=
  get_config_error_retry (fun _ => false) (fun _ => true)
    { firebase_credential_path := some "gone.json" } {}
    (.credentialMissing "gone.json")
    [.firebase_credential_missing "gone.json"] [] _
    rfl
    (by simp [buildACDCNConfig, finishConfig, fieldErrors_empty_env, dictExcludeCred])

theorem construct_fresh (fs : String → Bool) (env : Env) (cfgSt : ConfigState) :
    FirebaseManager.construct fs env initFMClass cfgSt =
      match get_config fs env cfgSt with
      | (.ok c, st') =>
          (.ok ⟨0, true, some c, some none, some none, some ⟨none, 0, 0⟩⟩,
           ⟨some ⟨0, true, some c, some none, some none, some ⟨none, 0, 0⟩⟩, 1, 1⟩, st')
      | (.error e, st') =>
          (.error e, ⟨some ⟨0, false, none, none, none, none⟩, 1, 1⟩, st') := by
  rcases hg : get_config fs env cfgSt with ⟨r, st'⟩
  cases r <;>
    simp [FirebaseManager.construct, FirebaseManager.new, FirebaseManager.init,
      initFMClass, hg]

theorem runNews_cached (m : Manager) (cls : FMClass) (h : cls._instance = some m) :
    ∀ k, runNews k cls = (List.replicate k m, cls) := by
  intro k
  induction k with
  | zero => simp [runNews]
  | succ k ih => simp [runNews, FirebaseManager.new, h, ih, List.replicate_succ]

/-- C7: once the first `FirebaseManager()` evaluation has succeeded, every
later evaluation — under any environment, file system or config-module
state — returns the very same instance and changes nothing: in particular
`error_count`, `total_operations` and `last_healthy_check` in
`_connection_stats` are never reset by re-construction. -/
theorem construct_after_first (fs₀ fs : String → Bool) (env₀ env : Env)
    (cfgSt₀ cfgSt₁ cfgSt : ConfigState) (m : Manager) (cls₁ : FMClass)
    (h : FirebaseManager.construct fs₀ env₀ initFMClass cfgSt₀ = (.ok m, cls₁, cfgSt₁)) :
    FirebaseManager.construct fs env cls₁ cfgSt = (.ok m, cls₁, cfgSt) := by
  rw [construct_fresh] at h
  rcases hg : get_config fs₀ env₀ cfgSt₀ with ⟨r, st'⟩
  rw [hg] at h
  cases r with
  | ok c =>
    simp only [Prod.mk.injEq, Except.ok.injEq] at h
    obtain ⟨rfl, rfl, rfl⟩ := h
    simp [FirebaseManager.construct, FirebaseManager.new, FirebaseManager.init]
  | error e => simp at h

/-- C7 witness: a second evaluation of the constructor, after a successful
first one, returns the same instance and leaves the stats untouched. -/
theorem construct_after_first_witness :
    FirebaseManager.construct (fun _ => false) { api_port := some 2000 }
      ⟨some ⟨0, true,
         some { firebase_credential_path := "p", firestore_database_name := "db"
                kg_synergy_threshold := 1, max_domain_connections := 1
                api_host := "h", api_port := 2000, batch_size := 1
                max_retry_attempts := 1 },
         some none, some none, some ⟨none, 0, 0⟩⟩, 1, 1⟩
      ⟨none, []⟩ =
      (.ok ⟨0, true,
         some { firebase_credential_path := "p", firestore_database_name := "db"
                kg_synergy_threshold := 1, max_domain_connections := 1
                api_host := "h", api_port := 2000, batch_size := 1
                max_retry_attempts := 1 },
         some none, some none, some ⟨none, 0, 0⟩⟩,
       ⟨some ⟨0, true,
          some { firebase_credential_path := "p", firestore_database_name := "db"
                 kg_synergy_threshold := 1, max_domain_connections := 1
                 api_host := "h", api_port := 2000, batch_size := 1
                 max_retry_attempts := 1 },
          some none, some none, some ⟨none, 0, 0⟩⟩, 1, 1⟩,
       ⟨none, []⟩) :=
  construct_after_first (fun _ => true) (fun _ => false) {} { api_port := some 2000 }
    ⟨some { firebase_credential_path := "p", firestore_database_name := "db"
            kg_synergy_threshold := 1, max_domain_connections := 1
            api_host := "h", api_port := 2000, batch_size := 1
            max_retry_attempts := 1 }, []⟩
    _ ⟨none, []⟩ _ _ rfl

/-- C8: N concurrent first-time acquisitions: the lock makes `__new__`'s
check-and-construct atomic, so any interleaving of N threads is a
sequential order of N atomic `__new__` calls; exactly one object is
allocated, and every caller receives a reference to that one object. -/
theorem concurrent_new_single_instance (n : Nat) (hn : 0 < n) :
    (runNews n initFMClass).2.allocCount = 1 ∧
    (runNews n initFMClass).1 =
      List.replicate n ⟨0, false, none, none, none, none⟩ := by
  obtain ⟨k, rfl⟩ : ∃ k, n = k + 1 := ⟨n - 1, by omega⟩
  have hnew : FirebaseManager.new initFMClass =
      (⟨0, false, none, none, none, none⟩,
       ⟨some ⟨0, false, none, none, none, none⟩, 1, 1⟩) := rfl
  have hrest := runNews_cached ⟨0, false, none, none, none, none⟩
    ⟨some ⟨0, false, none, none, none, none⟩, 1, 1⟩ rfl k
  constructor
  · simp [runNews, hnew, hrest]
  · simp [runNews, hnew, hrest, List.replicate_succ]

/-- C8 witness: three racing first-time callers allocate exactly one
instance and all observe the same reference. -/
theorem concurrent_new_single_instance_witness :
    0 < 3 ∧
    ((runNews 3 initFMClass).2.allocCount = 1 ∧
     (runNews 3 initFMClass).1 =
       List.replicate 3 ⟨0, false, none, none, none, none⟩) :=
  ⟨by decide, concurrent_new_single_instance 3 (by decide)⟩

/-- C10: a successful first construction performs no Firebase SDK work:
the returned instance has `_app = None`, `_db = None`, and
`_connection_stats = {'last_healthy_check': None, 'error_count': 0,
'total_operations': 0}`; connection setup is left to
`_initialize_firebase`, which the constructor never calls. -/
theorem construct_no_connection (fs : String → Bool) (env : Env)
    (cfgSt cfgSt' : ConfigState) (m : Manager) (cls' : FMClass)
    (h : FirebaseManager.construct fs env initFMClass cfgSt = (.ok m, cls', cfgSt')) :
    m._app = some none ∧ m._db = some none ∧
    m._connection_stats = some ⟨none, 0, 0⟩ ∧ m._initialized = true := by
  rw [construct_fresh] at h
  rcases hg : get_config fs env cfgSt with ⟨r, st'⟩
  rw [hg] at h
  cases r with
  | ok c =>
    simp only [Prod.mk.injEq, Except.ok.injEq] at h
    obtain ⟨rfl, -, -⟩ := h
    exact ⟨rfl, rfl, rfl, rfl⟩
  | error e => simp at h

/-- C10 witness: a concrete first construction yields `None` handles and
zeroed stats. -/
theorem construct_no_connection_witness :
    (⟨0, true,
       some { firebase_credential_path := "p", firestore_database_name := "db"
              kg_synergy_threshold := 1, max_domain_connections := 1
              api_host := "h", api_port := 2000, batch_size := 1
              max_retry_attempts := 1 },
       some none, some none, some ⟨none, 0, 0⟩⟩ : Manager)._app = some none ∧
    (⟨0, true,
       some { firebase_credential_path := "p", firestore_database_name := "db"
              kg_synergy_threshold := 1, max_domain_connections := 1
              api_host := "h", api_port := 2000, batch_size := 1
              max_retry_attempts := 1 },
       some none, some none, some ⟨none, 0, 0⟩⟩ : Manager)._db = some none ∧
    (⟨0, true,
       some { firebase_credential_path := "p", firestore_database_name := "db"
              kg_synergy_threshold := 1, max_domain_connections := 1
              api_host := "h", api_port := 2000, batch_size := 1
              max_retry_attempts := 1 },
       some none, some none, some ⟨none, 0, 0⟩⟩ : Manager)._connection_stats =
      some ⟨none, 0, 0⟩ ∧
    (⟨0, true,
       some { firebase_credential_path := "p", firestore_database_name := "db"
              kg_synergy_threshold := 1, max_domain_connections := 1
              api_host := "h", api_port := 2000, batch_size := 1
              max_retry_attempts := 1 },
       some none, some none, some ⟨none, 0, 0⟩⟩ : Manager)._initialized = true :=
  construct_no_connection (fun _ => true) {}
    ⟨some { firebase_credential_path := "p", firestore_database_name := "db"
            kg_synergy_threshold := 1, max_domain_connections := 1
            api_host := "h", api_port := 2000, batch_size := 1
            max_retry_attempts := 1 }, []⟩
    _ _ _ rfl

end ACDCN
